import Mathlib

/-!
Shallow embedding of `pghoard/object_storage/__init__.py` (the transfer
agent): backend construction, the per-site backend registry, key-path
formatting, the upload/download handlers and the worker run loop, together
with theorems checking the natural-language specification against it.

Python dictionaries are modelled as association lists; a dict access
`d["k"]` that may fail becomes an `Except PyErr` value carrying
`PyErr.keyError "k"`.  Configuration values are modelled as strings.
-/

namespace PGHoard

/-- Python exceptions that the embedded code can raise or observe.
`keyError` models `KeyError`, `invalidConfigurationError` models
`pghoard.errors.InvalidConfigurationError`, `fileNotFoundFromStorageError`
models `pghoard.errors.FileNotFoundFromStorageError`; `storageError`,
`attributeError` and `other` model the remaining exceptions a storage
backend or the runtime may raise (all are subclasses of `Exception`, so
all are caught by the handlers' `except Exception` blocks). -/
inductive PyErr where
  | keyError (k : String)
  | invalidConfigurationError (msg : String)
  | fileNotFoundFromStorageError
  | storageError (msg : String)
  | attributeError (msg : String)
  | other (msg : String)
  deriving Repr, DecidableEq

/-- A Python dict with string keys and string values. -/
abbrev Dict : Type := List (String × String)

/-- Dict lookup, `d.get(k)`: the value bound to the first matching key. -/
def alookup {α : Type} : List (String × α) → String → Option α
  | [], _ => none
  | (k', v) :: rest, k => if k' = k then some v else alookup rest k

/-- Dict assignment `d[k] = v`: replace the binding if the key is present,
append a new binding otherwise (Python dicts keep insertion order). -/
def assocSet {α : Type} : List (String × α) → String → α → List (String × α)
  | [], k, v => [(k, v)]
  | (k', v') :: rest, k, v =>
    if k' = k then (k, v) :: rest else (k', v') :: assocSet rest k v

/-- `d[k]` on a dict: raises `KeyError` when the key is absent. -/
def getItem {α : Type} (d : List (String × α)) (k : String) : Except PyErr α :=
  match alookup d k with
  | some v => Except.ok v
  | none => Except.error (PyErr.keyError k)

/-- Access to a field of a request dict already projected to an `Option`:
`some v` is a present key, `none` raises `KeyError k`. -/
def getK {α : Type} (o : Option α) (k : String) : Except PyErr α :=
  match o with
  | some v => Except.ok v
  | none => Except.error (PyErr.keyError k)

/-- `d.get(k, default)` on a dict. -/
def dictGetD (d : Dict) (k default : String) : String :=
  (alookup d k).getD default

/-- A constructed object-storage backend.  The concrete provider classes
(`AzureTransfer`, `GoogleTransfer`, `S3Transfer`) are external
collaborators; the embedding records the constructor and the arguments the
registry passes to it.  `is_secure` keeps the raw `value.get("is_secure")`
result (the Python default `False` is modelled as `none`). -/
inductive Storage where
  | azure (account_name account_key container_name : String)
  | google (project_id bucket_name : String) (credential_file : Option String)
  | s3 (aws_access_key_id aws_secret_access_key region bucket_name : String)
      (host port is_secure : Option String)
  deriving Repr, DecidableEq

/-- `get_object_storage_transfer(key, value)`: construct a backend from one
`(provider-kind, provider-config)` entry.  Required keys are read with
`value[...]` (raising `KeyError` when absent), optional keys with
`value.get(...)`; an unrecognized provider kind raises
`InvalidConfigurationError`. -/
def get_object_storage_transfer (key : String) (value : Dict) :
    Except PyErr Storage :=
  if key = "azure" then do
    let an ← getItem value "account_name"
    let ak ← getItem value "account_key"
    Except.ok (Storage.azure an ak (dictGetD value "container_name" "pghoard"))
  else if key = "google" then do
    let pid ← getItem value "project_id"
    Except.ok (Storage.google pid (dictGetD value "bucket_name" "pghoard")
      (alookup value "credential_file"))
  else if key = "s3" then do
    let akid ← getItem value "aws_access_key_id"
    let sk ← getItem value "aws_secret_access_key"
    let region := dictGetD value "region" ""
    let bn ← getItem value "bucket_name"
    Except.ok (Storage.s3 akid sk region bn (alookup value "host")
      (alookup value "port") (alookup value "is_secure"))
  else
    Except.error (PyErr.invalidConfigurationError ("unknown storage type " ++ key))

/-- Whether a construction outcome is an `InvalidConfigurationError`. -/
def isInvalidConfigErr : Except PyErr Storage → Bool
  | Except.error (PyErr.invalidConfigurationError _) => true
  | _ => false

/-- Whether a construction outcome is a `KeyError`. -/
def isKeyErr : Except PyErr Storage → Bool
  | Except.error (PyErr.keyError _) => true
  | _ => false

/-- Stated from the spec's words, for comparison with the source: the
required configuration keys per recognized provider kind, one of which is
missing. -/
def missingRequired (key : String) (value : Dict) : Bool :=
  if key = "azure" then
    (alookup value "account_name").isNone || (alookup value "account_key").isNone
  else if key = "google" then
    (alookup value "project_id").isNone
  else if key = "s3" then
    (alookup value "aws_access_key_id").isNone ||
      (alookup value "aws_secret_access_key").isNone ||
      (alookup value "bucket_name").isNone
  else false

/-! ### `os.path` on POSIX paths, as used by `form_key_path` -/

/-- `os.path.basename(p)`: the characters after the last `'/'`. -/
def basenameL (l : List Char) : List Char :=
  (l.reverse.takeWhile (fun c => c ≠ '/')).reverse

/-- `os.path.dirname(p)`: the characters up to and including the last `'/'`
(the head), then — when the head is non-empty and not all slashes — the
head with its trailing slashes stripped. -/
def dirnameL (l : List Char) : List Char :=
  let head := (l.reverse.dropWhile (fun c => c ≠ '/')).reverse
  if head.all (fun c => c = '/') then head
  else (head.reverse.dropWhile (fun c => c = '/')).reverse

/-- Index of the last occurrence of `c` in `l`, if any. -/
def lastIdxOf (l : List Char) (c : Char) : Option Nat :=
  let suf := (l.reverse.takeWhile (fun x => x ≠ c)).length
  if suf = l.length then none else some (l.length - suf - 1)

/-- The root part of `os.path.splitext(p)`: split off the suffix starting
at the last `'.'`, but only when some character strictly between the last
`'/'` (exclusive) and that dot is not itself a dot — a basename consisting
of leading dots only keeps them (`".bashrc"` has no extension). -/
def splitextRootL (l : List Char) : List Char :=
  match lastIdxOf l '.' with
  | none => l
  | some di =>
    let fi := match lastIdxOf l '/' with
      | none => 0
      | some si => si + 1
    if fi ≤ di ∧ ((l.drop fi).take (di - fi)).any (fun c => c ≠ '.') then
      l.take di
    else l

/-- Python's `str.lower()` (ASCII case folding, as the operation names
`"UPLOAD"`/`"DOWNLOAD"` require), written as a structural map so that it
reduces definitionally. -/
def pyLower (s : String) : String := String.mk (s.data.map Char.toLower)

/-- `os.path.basename` on strings. -/
def basename (s : String) : String := String.mk (basenameL s.data)

/-- `os.path.dirname` on strings. -/
def dirname (s : String) : String := String.mk (dirnameL s.data)

/-- Root part of `os.path.splitext` on strings. -/
def splitextRoot (s : String) : String := String.mk (splitextRootL s.data)

/-! ### Data model: requests, results, queues, statistics -/

/-- String-to-string metadata mapping, opaque to the worker. -/
abbrev Metadata : Type := List (String × String)

/-- The `file_to_transfer` request dict pulled from the transfer queue.
Every field is optional because a Python dict key may be absent; `rtype`
is the `"type"` key, `blob` a byte string modelled as a list of byte
values, `callback_queue` an opaque handle modelled by an identifier. -/
structure FileToTransfer where
  rtype : Option String
  local_path : Option String
  site : Option String
  filetype : Option String
  file_size : Option Nat
  blob : Option (List Nat)
  metadata : Option Metadata
  target_path : Option String
  callback_queue : Option Nat
  deriving Repr, DecidableEq

/-- The result dict a handler returns: `{"success": ..}` possibly with a
`"call_callback"` key (absent means the worker's `.get("call_callback",
True)` defaults to `True`). -/
structure TransferResult where
  success : Bool
  call_callback : Option Bool
  deriving Repr, DecidableEq

/-- The message `handle_download` puts on the compression queue. -/
structure CompressionMsg where
  blob : List Nat
  callback_queue : Nat
  local_path : String
  metadata : Metadata
  site : String
  rtype : String
  deriving Repr, DecidableEq

/-- A filesystem call attempted during upload cleanup. -/
inductive FsAction where
  | rmtree (path : String)
  | unlink (path : String)
  deriving Repr, DecidableEq

/-- Externally observable effects of processing: messages put on the
compression queue, requests put back on the transfer queue, results put on
callback queues, `time.sleep` calls, and filesystem cleanup calls. -/
structure Effects where
  compressionPuts : List CompressionMsg := []
  transferPuts : List FileToTransfer := []
  callbackPuts : List (Nat × TransferResult) := []
  sleeps : List Rat := []
  fs : List FsAction := []
  deriving Repr, DecidableEq

/-- Concatenation of effect records, in order. -/
def Effects.app (a b : Effects) : Effects where
  compressionPuts := a.compressionPuts ++ b.compressionPuts
  transferPuts := a.transferPuts ++ b.transferPuts
  callbackPuts := a.callbackPuts ++ b.callbackPuts
  sleeps := a.sleeps ++ b.sleeps
  fs := a.fs ++ b.fs

/-- One statistics leaf: `{"data": 0, "count": 0, "time_taken": 0.0,
"failures": 0}`. -/
structure Leaf where
  data : Nat
  count : Nat
  time_taken : Rat
  failures : Nat
  deriving Repr, DecidableEq

/-- The zero leaf `EMPTY`. -/
def zeroLeaf : Leaf := { data := 0, count := 0, time_taken := 0, failures := 0 }

/-- Per-direction statistics: one leaf per known filetype. -/
structure OperStats where
  basebackup : Leaf
  xlog : Leaf
  timeline : Leaf
  deriving Repr, DecidableEq

/-- Per-site statistics: `{"upload": {...}, "download": {...}}`. -/
structure SiteStats where
  upload : OperStats
  download : OperStats
  deriving Repr, DecidableEq

/-- The fresh per-site statistics installed by
`set_state_defaults_for_site`. -/
def initSiteStats : SiteStats :=
  { upload := { basebackup := zeroLeaf, xlog := zeroLeaf, timeline := zeroLeaf },
    download := { basebackup := zeroLeaf, xlog := zeroLeaf, timeline := zeroLeaf } }

/-- `self.state`: site name to its statistics. -/
abbrev StateMap : Type := List (String × SiteStats)

/-- `self.state[site][oper]`: raises `KeyError` for a direction other than
`"upload"`/`"download"`. -/
def getOper (ss : SiteStats) (oper : String) : Except PyErr OperStats :=
  if oper = "upload" then Except.ok ss.upload
  else if oper = "download" then Except.ok ss.download
  else Except.error (PyErr.keyError oper)

/-- Writing back `self.state[site][oper]`. -/
def setOper (ss : SiteStats) (oper : String) (os : OperStats) : SiteStats :=
  if oper = "upload" then { ss with upload := os }
  else if oper = "download" then { ss with download := os }
  else ss

/-- `self.state[site][oper][filetype]`: raises `KeyError` for a filetype
other than the three created by `set_state_defaults_for_site`. -/
def getLeaf (os : OperStats) (ft : String) : Except PyErr Leaf :=
  if ft = "basebackup" then Except.ok os.basebackup
  else if ft = "xlog" then Except.ok os.xlog
  else if ft = "timeline" then Except.ok os.timeline
  else Except.error (PyErr.keyError ft)

/-- Writing back `self.state[site][oper][filetype]`. -/
def setLeaf (os : OperStats) (ft : String) (lf : Leaf) : OperStats :=
  if ft = "basebackup" then { os with basebackup := lf }
  else if ft = "xlog" then { os with xlog := lf }
  else if ft = "timeline" then { os with timeline := lf }
  else os

/-- Read one statistics leaf, with absent site / unknown direction /
unknown filetype all reading as the zero leaf (used only to state frame
properties; the embedded code itself raises on unknown keys). -/
def readLeafD (st : StateMap) (site oper ft : String) : Leaf :=
  match alookup st site with
  | none => zeroLeaf
  | some ss =>
    match getOper ss oper with
    | Except.error _ => zeroLeaf
    | Except.ok os =>
      match getLeaf os ft with
      | Except.error _ => zeroLeaf
      | Except.ok lf => lf

/-- `set_state_defaults_for_site`: install zeroed statistics for a site not
seen before. -/
def set_state_defaults_for_site (st : StateMap) (site : String) : StateMap :=
  match alookup st site with
  | some _ => st
  | none => assocSet st site initSiteStats

/-- The three `+=` statements (success) or the single `failures += 1`
statement of the run loop, on the leaf
`self.state[site][oper][filetype]`. -/
def updateStats (st : StateMap) (site oper ft : String) (success : Bool)
    (size : Nat) (elapsed : Rat) : Except PyErr StateMap :=
  match alookup st site with
  | none => Except.error (PyErr.keyError site)
  | some ss => do
    let os ← getOper ss oper
    let lf ← getLeaf os ft
    let lf' :=
      if success then
        { lf with count := lf.count + 1, data := lf.data + size,
                  time_taken := lf.time_taken + elapsed }
      else { lf with failures := lf.failures + 1 }
    Except.ok (assocSet st site (setOper ss oper (setLeaf os ft lf')))

/-- Source lines 95–103 of the run loop: `set_state_defaults_for_site`
followed by the counter updates. -/
def incrementStats (st : StateMap) (site oper ft : String) (success : Bool)
    (size : Nat) (elapsed : Rat) : Except PyErr StateMap :=
  updateStats (set_state_defaults_for_site st site) site oper ft success size elapsed

/-! ### Backend registry -/

/-- One site's entry under `config["backup_sites"]`: the optional
`object_storage` mapping of provider kind to provider config
(`.get("object_storage", {})` reads an absent key as the empty dict). -/
structure SiteCfg where
  object_storage : Option (List (String × Dict))
  deriving Repr, DecidableEq

/-- The agent configuration (`self.config`); pghoard configs always carry
the `backup_sites` key, so it is modelled as a plain field. -/
structure Config where
  backup_sites : List (String × SiteCfg)
  deriving Repr, DecidableEq

/-- The per-site backend cache `self.site_transfers`. -/
abbrev Cache : Type := List (String × Storage)

/-- The `for key, value in cfg.items()` loop of `get_object_storage`:
construct a backend from every entry in order, overwriting
`self.site_transfers[site_name]` each time; a failing construction
propagates its exception, keeping the cache mutations already made. -/
def resolveEntries (site : String) :
    List (String × Dict) → Option Storage → Cache →
    Except PyErr (Option Storage) × Cache
  | [], cur, cache => (Except.ok cur, cache)
  | (k, v) :: rest, _, cache =>
    match get_object_storage_transfer k v with
    | Except.error e => (Except.error e, cache)
    | Except.ok s => resolveEntries site rest (some s) (assocSet cache site s)

/-- `get_object_storage(site_name)`: return the cached backend when one is
present, otherwise read the site's `object_storage` config and run the
construction loop.  Returns the outcome together with the (possibly
mutated) cache. -/
def get_object_storage (cfg : Config) (cache : Cache) (site : String) :
    Except PyErr (Option Storage) × Cache :=
  match alookup cache site with
  | some s => (Except.ok (some s), cache)
  | none =>
    match alookup cfg.backup_sites site with
    | none => (Except.error (PyErr.keyError site), cache)
    | some sc => resolveEntries site (sc.object_storage.getD []) none cache

/-! ### External collaborators: storage backends and the filesystem -/

/-- Behaviour of the external world during one handler call: the storage
backend methods (which may raise any exception) and the filesystem calls
used by upload cleanup. -/
structure Env where
  store_file_from_memory : Storage → String → List Nat → Metadata → Except PyErr Unit
  store_file_from_disk : Storage → String → String → Metadata → Except PyErr Unit
  get_contents_to_string : Storage → String → Except PyErr (List Nat × Metadata)
  rmtree : String → Except PyErr Unit
  unlink : String → Except PyErr Unit
  path_exists : String → Bool

/-- `storage.store_file_from_memory(...)` where `storage` may be `None`
(call on `None` raises `AttributeError`). -/
def storeMemOpt (env : Env) (st : Option Storage) (key : String)
    (b : List Nat) (md : Metadata) : Except PyErr Unit :=
  match st with
  | none => Except.error (PyErr.attributeError "store_file_from_memory")
  | some s => env.store_file_from_memory s key b md

/-- `storage.store_file_from_disk(...)` where `storage` may be `None`. -/
def storeDiskOpt (env : Env) (st : Option Storage) (key : String)
    (path : String) (md : Metadata) : Except PyErr Unit :=
  match st with
  | none => Except.error (PyErr.attributeError "store_file_from_disk")
  | some s => env.store_file_from_disk s key path md

/-- `storage.get_contents_to_string(key)` where `storage` may be `None`. -/
def fetchOpt (env : Env) (st : Option Storage) (key : String) :
    Except PyErr (List Nat × Metadata) :=
  match st with
  | none => Except.error (PyErr.attributeError "get_contents_to_string")
  | some s => env.get_contents_to_string s key

/-! ### Key path formatting -/

/-- `form_key_path(file_to_transfer)`: `"/".join([site, filetype, name])`
where `name` is the basename of the local path's parent directory for
base backups and the extension-stripped basename otherwise.  Dict accesses
happen in source order (`filetype`, then `local_path`, then `site`). -/
def form_key_path (ftt : FileToTransfer) : Except PyErr String := do
  let ft ← getK ftt.filetype "filetype"
  let name ←
    if ft = "basebackup" then do
      let lp ← getK ftt.local_path "local_path"
      Except.ok (basename (dirname lp))
    else do
      let lp ← getK ftt.local_path "local_path"
      Except.ok (splitextRoot (basename lp))
  let site ← getK ftt.site "site"
  Except.ok (site ++ "/" ++ ft ++ "/" ++ name)

/-! ### Handlers -/

/-- Outcome of one handler call: the returned result dict, the request dict
(possibly mutated in place), the backend cache after the call, and the
emitted effects. -/
structure HandlerOut where
  result : TransferResult
  req : FileToTransfer
  cache : Cache
  effects : Effects
  deriving Repr

/-- The inner cleanup `try` block of `handle_upload` after a successful
disk upload: its exceptions (including a `KeyError` on `filetype`) are
swallowed by the bare `except`, so the outcome is just the list of
filesystem calls attempted. -/
def cleanup (env : Env) (ftt : FileToTransfer) (lp : String) : List FsAction :=
  match ftt.filetype with
  | none => []
  | some ft =>
    if ft = "basebackup" then [FsAction.rmtree (dirname lp)]
    else
      match env.unlink lp with
      | Except.error _ => [FsAction.unlink lp]
      | Except.ok _ =>
        if env.path_exists (lp ++ ".metadata") then
          [FsAction.unlink lp, FsAction.unlink (lp ++ ".metadata")]
        else [FsAction.unlink lp]

/-- The body of `handle_upload`'s outer `try` after the backend has been
resolved: store from memory when a `blob` is present, otherwise store from
disk and run the cleanup block.  Returns the attempted filesystem calls. -/
def uploadBody (env : Env) (st : Option Storage) (key : String)
    (ftt : FileToTransfer) : Except PyErr (List FsAction) :=
  match ftt.blob with
  | some b => do
    let md ← getK ftt.metadata "metadata"
    let _ ← storeMemOpt env st key b md
    Except.ok []
  | none => do
    let lp ← getK ftt.local_path "local_path"
    let md ← getK ftt.metadata "metadata"
    let _ ← storeDiskOpt env st key lp md
    Except.ok (cleanup env ftt lp)

/-- `handle_upload(site, key, file_to_transfer)`.  Any exception from
backend resolution or the store call is caught: the agent sleeps 0.5s,
puts the same request dict back on the transfer queue and returns
`{"success": False, "call_callback": False}`.  The `except` block's log
statement reads `file_to_transfer["local_path"]`, so a request without a
`local_path` makes the handler itself raise `KeyError`. -/
def handle_upload (cfg : Config) (env : Env) (cache : Cache)
    (site key : String) (ftt : FileToTransfer) : Except PyErr HandlerOut :=
  match get_object_storage cfg cache site with
  | (res, cache') =>
    let attempt : Except PyErr (List FsAction) := do
      let st ← res
      uploadBody env st key ftt
    match attempt with
    | Except.ok fsActs =>
      Except.ok { result := { success := true, call_callback := none },
                  req := ftt, cache := cache', effects := { fs := fsActs } }
    | Except.error _ =>
      match ftt.local_path with
      | none => Except.error (PyErr.keyError "local_path")
      | some _ =>
        Except.ok { result := { success := false, call_callback := some false },
                    req := ftt, cache := cache',
                    effects := { transferPuts := [ftt], sleeps := [(1 : Rat)/2] } }

/-- `handle_download(site, key, file_to_transfer)`.  On a successful fetch
the request's `file_size` is set to the content length and one
`DECOMPRESSION` message is put on the compression queue; the message dict
literal reads `callback_queue` and then `target_path` from the request, so
a missing key there raises inside the `try` and is caught like any other
exception, yielding `{"success": False}`. -/
def handle_download (cfg : Config) (env : Env) (cache : Cache)
    (site key : String) (ftt : FileToTransfer) : HandlerOut :=
  match get_object_storage cfg cache site with
  | (res, cache') =>
    match res with
    | Except.error _ =>
      { result := { success := false, call_callback := none },
        req := ftt, cache := cache', effects := {} }
    | Except.ok st =>
      match fetchOpt env st key with
      | Except.error _ =>
        { result := { success := false, call_callback := none },
          req := ftt, cache := cache', effects := {} }
      | Except.ok (content, md) =>
        let r := { ftt with file_size := some content.length }
        match r.callback_queue with
        | none =>
          { result := { success := false, call_callback := none },
            req := r, cache := cache', effects := {} }
        | some cb =>
          match r.target_path with
          | none =>
            { result := { success := false, call_callback := none },
              req := r, cache := cache', effects := {} }
          | some tp =>
            { result := { success := true, call_callback := some false },
              req := r, cache := cache',
              effects := { compressionPuts :=
                [{ blob := content, callback_queue := cb, local_path := tp,
                   metadata := md, site := site, rtype := "DECOMPRESSION" }] } }

/-! ### The worker run loop -/

/-- Lines 106–107 of the run loop: put the result on the request's
callback queue when `result.get("call_callback", True)` holds and the
request carries one. -/
def callbackPutsFor (ftt : FileToTransfer) (r : TransferResult) :
    List (Nat × TransferResult) :=
  if r.call_callback.getD true then
    match ftt.callback_queue with
    | some q => [(q, r)]
    | none => []
  else []

/-- How one loop iteration continues. -/
inductive StepOutcome where
  | quit
  | next
  deriving Repr, DecidableEq

/-- The worker-owned mutable state: `self.state` and
`self.site_transfers`. -/
structure WorkerState where
  state : StateMap
  site_transfers : Cache
  deriving Repr, DecidableEq

/-- One iteration of `run` on a request pulled from the transfer queue,
between the two wall-clock readings `t0` (`start_time`) and `t1`.  An
`Except.error` is an exception propagating out of the loop (terminating
the worker thread).  Source order is kept: the `QUIT` check, the debug log
(which reads `local_path`), `form_key_path`, handler lookup by operation
name (only `handle_upload`/`handle_download` exist; anything else logs and
continues), the handler call, the statistics update and the callback
dispatch. -/
def processItem (cfg : Config) (env : Env) (ws : WorkerState)
    (ftt : FileToTransfer) (t0 t1 : Rat) :
    Except PyErr (StepOutcome × WorkerState × Effects) := do
  let ty ← getK ftt.rtype "type"
  if ty = "QUIT" then
    Except.ok (StepOutcome.quit, ws, {})
  else do
    let _ ← getK ftt.local_path "local_path"
    let key ← form_key_path ftt
    let oper := pyLower ty
    if oper = "upload" ∨ oper = "download" then do
      let site ← getK ftt.site "site"
      let filetype ← getK ftt.filetype "filetype"
      let hout ←
        if oper = "upload" then
          handle_upload cfg env ws.site_transfers site key ftt
        else
          Except.ok (handle_download cfg env ws.site_transfers site key ftt)
      let st' ← incrementStats ws.state site oper filetype hout.result.success
        (hout.req.file_size.getD 0) (t1 - t0)
      let effs := Effects.app hout.effects
        { callbackPuts := callbackPutsFor hout.req hout.result }
      Except.ok (StepOutcome.next, ⟨st', hout.cache⟩, effs)
    else
      Except.ok (StepOutcome.next, ws, {})

/-- One observation of the loop head: the running flag read as false, a
queue `get` timing out (`Empty`: loop again), or a request pulled from the
queue with its two wall-clock readings. -/
inductive LoopEvent where
  | stopFlag
  | timeout
  | item (f : FileToTransfer) (t0 t1 : Rat)

/-- Why the loop returned. -/
inductive LoopEnd where
  | stopped
  | quitReq
  | outOfEvents
  deriving Repr, DecidableEq

/-- The `run` loop over a finite trace of loop-head observations.  An
`Except.error` models an uncaught exception terminating the worker
thread. -/
def runLoop (cfg : Config) (env : Env) :
    WorkerState → List LoopEvent →
    Except PyErr (WorkerState × Effects × LoopEnd)
  | ws, [] => Except.ok (ws, {}, LoopEnd.outOfEvents)
  | ws, LoopEvent.stopFlag :: _ => Except.ok (ws, {}, LoopEnd.stopped)
  | ws, LoopEvent.timeout :: rest => runLoop cfg env ws rest
  | ws, LoopEvent.item f t0 t1 :: rest => do
    let (out, ws', effs) ← processItem cfg env ws f t0 t1
    match out with
    | StepOutcome.quit => Except.ok (ws', effs, LoopEnd.quitReq)
    | StepOutcome.next => do
      let (ws'', effs', e) ← runLoop cfg env ws' rest
      Except.ok (ws'', Effects.app effs effs', e)

/-! ### Helper lemmas -/

@[simp] theorem ebind_ok {ε α β : Type} (a : α) (f : α → Except ε β) :
    (Except.ok a >>= f) = f a := rfl

@[simp] theorem ebind_err {ε α β : Type} (e : ε) (f : α → Except ε β) :
    ((Except.error e : Except ε α) >>= f) = Except.error e := rfl

@[simp] theorem alookup_assocSet_self {α : Type} (l : List (String × α))
    (k : String) (v : α) : alookup (assocSet l k v) k = some v := by
  induction l with
  | nil => simp [assocSet, alookup]
  | cons hd tl ih =>
    rcases hd with ⟨k', v'⟩
    by_cases h : k' = k <;> simp [assocSet, alookup, h, ih]

theorem alookup_assocSet_ne {α : Type} (l : List (String × α))
    (k k' : String) (v : α) (h : k' ≠ k) :
    alookup (assocSet l k v) k' = alookup l k' := by
  have h2 : ¬ k = k' := fun hc => h hc.symm
  induction l with
  | nil => simp [assocSet, alookup, h2]
  | cons hd tl ih =>
    rcases hd with ⟨k1, v1⟩
    by_cases h1 : k1 = k
    · subst h1
      simp [assocSet, alookup, h2]
    · simp [assocSet, alookup, h1, ih]

theorem assocSet_assocSet {α : Type} (l : List (String × α)) (k : String)
    (a b : α) : assocSet (assocSet l k a) k b = assocSet l k b := by
  induction l with
  | nil => simp [assocSet]
  | cons hd tl ih =>
    rcases hd with ⟨k1, v1⟩
    by_cases h1 : k1 = k <;> simp [assocSet, h1, ih]

/-! ### C6: configuration errors from backend construction -/

/-- C6 counterexample: for provider kind `"azure"` with an empty provider
config, a required key (`account_name`) is missing, yet construction
raises `KeyError`, not `InvalidConfigurationError` — refuting the claim
that a missing required key raises `ConfigurationError`. -/
theorem c6_counterexample :
    get_object_storage_transfer "azure" [] =
      Except.error (PyErr.keyError "account_name") ∧
    isInvalidConfigErr (get_object_storage_transfer "azure" []) = false := by
  constructor <;> rfl

/-- C6 (amended): backend construction raises `InvalidConfigurationError`
if and only if the provider kind is unrecognized (not one of `azure`,
`google`, `s3`); for a recognized provider kind, a missing required
configuration key raises `KeyError` instead, and exactly then. -/
theorem c6_config_error_amended (key : String) (value : Dict) :
    (isInvalidConfigErr (get_object_storage_transfer key value) = true ↔
      ¬(key = "azure" ∨ key = "google" ∨ key = "s3")) ∧
    ((key = "azure" ∨ key = "google" ∨ key = "s3") →
      (isKeyErr (get_object_storage_transfer key value) = true ↔
        missingRequired key value = true)) := by
  by_cases ha : key = "azure"
  · subst ha
    cases h1 : alookup value "account_name" <;>
      cases h2 : alookup value "account_key" <;>
        simp [get_object_storage_transfer, getItem, h1, h2,
          isInvalidConfigErr, isKeyErr, missingRequired]
  · by_cases hg : key = "google"
    · subst hg
      cases h1 : alookup value "project_id" <;>
        simp [get_object_storage_transfer, getItem, h1,
          isInvalidConfigErr, isKeyErr, missingRequired]
    · by_cases hs : key = "s3"
      · subst hs
        cases h1 : alookup value "aws_access_key_id" <;>
          cases h2 : alookup value "aws_secret_access_key" <;>
            cases h3 : alookup value "bucket_name" <;>
              simp [get_object_storage_transfer, getItem, h1, h2, h3,
                isInvalidConfigErr, isKeyErr, missingRequired]
      · simp [get_object_storage_transfer, ha, hg, hs,
          isInvalidConfigErr, isKeyErr]

/-- Witness for C6 (amended), applying it at concrete inputs: an
unrecognized kind is an `InvalidConfigurationError`; for `google` with an
empty config, `KeyError` is raised exactly because `project_id` is
missing. -/
theorem c6_config_error_amended_witness :
    isInvalidConfigErr (get_object_storage_transfer "swift" []) = true ∧
    isKeyErr (get_object_storage_transfer "google" []) = true := by
  constructor
  · exact (c6_config_error_amended "swift" []).1.mpr (by decide)
  · exact ((c6_config_error_amended "google" []).2 (Or.inr (Or.inl rfl))).mpr
      (by decide)

/-! ### C4: key path formatting -/

theorem dropWhile_append_all {α : Type} (p : α → Bool) (xs ys : List α)
    (h : ∀ a ∈ xs, p a = true) :
    (xs ++ ys).dropWhile p = ys.dropWhile p := by
  induction xs with
  | nil => rfl
  | cons x xs ih =>
    have hx : p x = true := h x (List.mem_cons_self x xs)
    simp only [List.cons_append, List.dropWhile_cons, hx, if_true]
    exact ih (fun a ha => h a (List.mem_cons_of_mem x ha))

theorem dirnameL_congr (l1 l2 : List Char)
    (h : l1.reverse.dropWhile (fun c => c ≠ '/') =
         l2.reverse.dropWhile (fun c => c ≠ '/')) :
    dirnameL l1 = dirnameL l2 := by
  unfold dirnameL
  rw [h]

/-- The parent directory of `d ++ "/" ++ f` does not depend on `f` when
`f` contains no slash. -/
theorem dirname_concat (d f : String)
    (hf : f.data.all (fun c => c ≠ '/') = true) :
    dirname (d ++ "/" ++ f) = dirname (d ++ "/") := by
  unfold dirname
  refine congrArg String.mk (dirnameL_congr _ _ ?_)
  have h1 : (d ++ "/" ++ f).data = (d ++ "/").data ++ f.data := by
    rw [String.data_append]
  rw [h1, List.reverse_append]
  exact dropWhile_append_all _ f.data.reverse _
    (fun a ha => by
      have := List.all_eq_true.mp hf a (List.mem_reverse.mp ha)
      simpa using this)

/-- C4: `form_key_path` is a pure function of the request.  For
`basebackup` the key is `site ++ "/" ++ filetype ++ "/" ++` the basename
of the local path's parent directory — the same for every slash-free file
name inside that directory; for every other filetype, the key component is
the basename of the local path with its final extension stripped
(`os.path.splitext` semantics). -/
theorem c4_form_key_path (ftt : FileToTransfer) (site ft lp : String)
    (hs : ftt.site = some site) (hf : ftt.filetype = some ft)
    (hl : ftt.local_path = some lp) :
    (ft = "basebackup" →
      form_key_path ftt =
        Except.ok (site ++ "/" ++ ft ++ "/" ++ basename (dirname lp)) ∧
      ∀ d f1 f2 : String, f1.data.all (fun c => c ≠ '/') = true →
        f2.data.all (fun c => c ≠ '/') = true →
        form_key_path { ftt with local_path := some (d ++ "/" ++ f1) } =
          form_key_path { ftt with local_path := some (d ++ "/" ++ f2) }) ∧
    (ft ≠ "basebackup" →
      form_key_path ftt =
        Except.ok (site ++ "/" ++ ft ++ "/" ++ splitextRoot (basename lp))) := by
  constructor
  · intro hbb
    subst hbb
    constructor
    · simp [form_key_path, getK, hs, hf, hl]
    · intro d f1 f2 hf1 hf2
      simp only [form_key_path, getK, hs, hf, ebind_ok]
      rw [dirname_concat d f1 hf1, dirname_concat d f2 hf2]
      simp
  · intro hne
    simp [form_key_path, getK, hs, hf, hl, hne]

/-- Witness for C4 at concrete requests: a base backup keyed by its parent
directory name, and an xlog file keyed by its extension-stripped
basename. -/
theorem c4_form_key_path_witness :
    form_key_path
      { rtype := some "UPLOAD", local_path := some "/d/base1/chunk0",
        site := some "s", filetype := some "basebackup", file_size := none,
        blob := none, metadata := some [], target_path := none,
        callback_queue := none } = Except.ok "s/basebackup/base1" ∧
    form_key_path
      { rtype := some "UPLOAD", local_path := some "/d/0001.partial",
        site := some "s", filetype := some "xlog", file_size := none,
        blob := none, metadata := some [], target_path := none,
        callback_queue := none } = Except.ok "s/xlog/0001" := by
  constructor
  · exact (((c4_form_key_path _ "s" "basebackup" "/d/base1/chunk0"
      rfl rfl rfl).1 rfl).1).trans (congrArg Except.ok (by decide))
  · exact ((c4_form_key_path _ "s" "xlog" "/d/0001.partial"
      rfl rfl rfl).2 (by decide)).trans (congrArg Except.ok (by decide))

/-! ### C3: statistics accounting -/

/-- Projection `self.state[site][oper]` for a known direction. -/
def operProj (ss : SiteStats) (oper : String) : OperStats :=
  if oper = "upload" then ss.upload else ss.download

/-- Projection `self.state[site][oper][filetype]` for a known filetype. -/
def leafProj (os : OperStats) (ft : String) : Leaf :=
  if ft = "basebackup" then os.basebackup
  else if ft = "xlog" then os.xlog
  else os.timeline

theorem getOper_valid (ss : SiteStats) (oper : String)
    (hop : oper = "upload" ∨ oper = "download") :
    getOper ss oper = Except.ok (operProj ss oper) := by
  rcases hop with rfl | rfl <;> simp [getOper, operProj]

theorem getLeaf_valid (os : OperStats) (ft : String)
    (hft : ft = "basebackup" ∨ ft = "xlog" ∨ ft = "timeline") :
    getLeaf os ft = Except.ok (leafProj os ft) := by
  rcases hft with rfl | rfl | rfl <;> simp [getLeaf, leafProj]

theorem getOper_setOper_ne (ss : SiteStats) (os : OperStats) (oper o' : String)
    (hop : oper = "upload" ∨ oper = "download") (h : o' ≠ oper) :
    getOper (setOper ss oper os) o' = getOper ss o' := by
  rcases hop with rfl | rfl <;> simp [getOper, setOper, h]

theorem getOper_setOper_self (ss : SiteStats) (os : OperStats) (oper : String)
    (hop : oper = "upload" ∨ oper = "download") :
    getOper (setOper ss oper os) oper = Except.ok os := by
  rcases hop with rfl | rfl <;> simp [getOper, setOper]

theorem getLeaf_setLeaf_ne (os : OperStats) (lf : Leaf) (ft f' : String)
    (hft : ft = "basebackup" ∨ ft = "xlog" ∨ ft = "timeline") (h : f' ≠ ft) :
    getLeaf (setLeaf os ft lf) f' = getLeaf os f' := by
  rcases hft with rfl | rfl | rfl <;> simp [getLeaf, setLeaf, h]

theorem readLeafD_eq (st : StateMap) (s o f : String) (ss : SiteStats)
    (h : alookup st s = some ss) :
    readLeafD st s o f =
      (match getOper ss o with
       | Except.error _ => zeroLeaf
       | Except.ok os =>
         match getLeaf os f with
         | Except.error _ => zeroLeaf
         | Except.ok lf => lf) := by
  unfold readLeafD
  rw [h]

theorem readLeafD_valid (st : StateMap) (s o f : String) (ss : SiteStats)
    (h : alookup st s = some ss)
    (hop : o = "upload" ∨ o = "download")
    (hft : f = "basebackup" ∨ f = "xlog" ∨ f = "timeline") :
    readLeafD st s o f = leafProj (operProj ss o) f := by
  unfold readLeafD
  simp only [h, getOper_valid ss o hop, getLeaf_valid (operProj ss o) f hft]

theorem getLeaf_setLeaf_self (os : OperStats) (lf : Leaf) (ft : String)
    (hft : ft = "basebackup" ∨ ft = "xlog" ∨ ft = "timeline") :
    getLeaf (setLeaf os ft lf) ft = Except.ok lf := by
  rcases hft with rfl | rfl | rfl <;> simp [getLeaf, setLeaf]

theorem alookup_defaults_self (st : StateMap) (site : String) :
    ∃ ss, alookup (set_state_defaults_for_site st site) site = some ss := by
  unfold set_state_defaults_for_site
  cases h : alookup st site with
  | some ss => exact ⟨ss, h⟩
  | none => exact ⟨initSiteStats, alookup_assocSet_self st site initSiteStats⟩

theorem initSiteStats_read (o f : String) :
    (match getOper initSiteStats o with
     | Except.error _ => zeroLeaf
     | Except.ok os =>
       match getLeaf os f with
       | Except.error _ => zeroLeaf
       | Except.ok lf => lf) = zeroLeaf := by
  by_cases h1 : o = "upload" <;> by_cases h2 : o = "download" <;>
    by_cases g1 : f = "basebackup" <;> by_cases g2 : f = "xlog" <;>
      by_cases g3 : f = "timeline" <;>
        simp [getOper, getLeaf, h1, h2, g1, g2, g3, initSiteStats]

theorem readLeafD_defaults (st : StateMap) (site s' o' f' : String) :
    readLeafD (set_state_defaults_for_site st site) s' o' f' =
      readLeafD st s' o' f' := by
  unfold set_state_defaults_for_site
  cases h : alookup st site with
  | some ss => rfl
  | none =>
    by_cases hs : s' = site
    · subst hs
      rw [readLeafD_eq _ s' o' f' initSiteStats (alookup_assocSet_self st s' _),
        initSiteStats_read]
      unfold readLeafD
      rw [h]
    · unfold readLeafD
      rw [alookup_assocSet_ne st site s' initSiteStats hs]

theorem updateStats_eq (st : StateMap) (site oper ft : String) (success : Bool)
    (size : Nat) (elapsed : Rat) (ss : SiteStats)
    (hss : alookup st site = some ss)
    (hop : oper = "upload" ∨ oper = "download")
    (hft : ft = "basebackup" ∨ ft = "xlog" ∨ ft = "timeline") :
    updateStats st site oper ft success size elapsed =
      Except.ok (assocSet st site (setOper ss oper
        (setLeaf (operProj ss oper) ft
          (if success then
            { leafProj (operProj ss oper) ft with
              count := (leafProj (operProj ss oper) ft).count + 1,
              data := (leafProj (operProj ss oper) ft).data + size,
              time_taken := (leafProj (operProj ss oper) ft).time_taken + elapsed }
          else
            { leafProj (operProj ss oper) ft with
              failures := (leafProj (operProj ss oper) ft).failures + 1 })))) := by
  unfold updateStats
  simp only [hss, getOper_valid ss oper hop, ebind_ok,
    getLeaf_valid (operProj ss oper) ft hft]

/-- Reading back the leaf just written by the statistics update. -/
theorem readLeafD_after_update (st0 : StateMap) (site oper ft : String)
    (ss : SiteStats) (lf : Leaf)
    (hop : oper = "upload" ∨ oper = "download")
    (hft : ft = "basebackup" ∨ ft = "xlog" ∨ ft = "timeline") :
    readLeafD (assocSet st0 site (setOper ss oper
      (setLeaf (operProj ss oper) ft lf))) site oper ft = lf := by
  unfold readLeafD
  simp only [alookup_assocSet_self,
    getOper_setOper_self ss (setLeaf (operProj ss oper) ft lf) oper hop,
    getLeaf_setLeaf_self (operProj ss oper) lf ft hft]

/-- Every statistics leaf other than the one written reads unchanged. -/
theorem readLeafD_after_update_frame (st0 : StateMap) (site oper ft : String)
    (ss : SiteStats) (lf : Leaf)
    (hop : oper = "upload" ∨ oper = "download")
    (hft : ft = "basebackup" ∨ ft = "xlog" ∨ ft = "timeline")
    (hss : alookup st0 site = some ss)
    (s' o' f' : String) (hne : ¬(s' = site ∧ o' = oper ∧ f' = ft)) :
    readLeafD (assocSet st0 site (setOper ss oper
      (setLeaf (operProj ss oper) ft lf))) s' o' f' =
      readLeafD st0 s' o' f' := by
  by_cases hs' : s' = site
  · subst hs'
    unfold readLeafD
    simp only [alookup_assocSet_self, hss]
    by_cases ho' : o' = oper
    · subst ho'
      have hf' : f' ≠ ft := fun hc => hne ⟨rfl, rfl, hc⟩
      simp only [getOper_setOper_self ss (setLeaf (operProj ss o') ft lf) o' hop,
        getOper_valid ss o' hop,
        getLeaf_setLeaf_ne (operProj ss o') lf ft f' hft hf']
    · simp only [getOper_setOper_ne ss (setLeaf (operProj ss oper) ft lf) oper o' hop ho']
  · unfold readLeafD
    rw [alookup_assocSet_ne st0 site s' _ hs']

/-- C3: statistics frame effect.  For a known direction and filetype and a
non-negative elapsed time, the statistics update of the run loop succeeds;
on success exactly the `(site, oper, filetype)` leaf changes, with `count`
incremented, `data` and `time_taken` increased by the non-negative `size`
and `elapsed` and `failures` untouched; on failure only that leaf\'s
`failures` is incremented and its other fields are untouched; every other
leaf reads unchanged. -/
theorem c3_statistics (st : StateMap) (site oper ft : String) (success : Bool)
    (size : Nat) (elapsed : Rat)
    (hop : oper = "upload" ∨ oper = "download")
    (hft : ft = "basebackup" ∨ ft = "xlog" ∨ ft = "timeline")
    (helapsed : 0 ≤ elapsed) :
    ∃ st', incrementStats st site oper ft success size elapsed = Except.ok st' ∧
      (success = true →
        readLeafD st' site oper ft =
          { data := (readLeafD st site oper ft).data + size,
            count := (readLeafD st site oper ft).count + 1,
            time_taken := (readLeafD st site oper ft).time_taken + elapsed,
            failures := (readLeafD st site oper ft).failures } ∧
        (readLeafD st site oper ft).data ≤ (readLeafD st' site oper ft).data ∧
        (readLeafD st site oper ft).time_taken ≤
          (readLeafD st' site oper ft).time_taken) ∧
      (success = false →
        readLeafD st' site oper ft =
          { readLeafD st site oper ft with
            failures := (readLeafD st site oper ft).failures + 1 }) ∧
      (∀ s' o' f', ¬(s' = site ∧ o' = oper ∧ f' = ft) →
        readLeafD st' s' o' f' = readLeafD st s' o' f') := by
  obtain ⟨ss, hss⟩ := alookup_defaults_self st site
  have hok := updateStats_eq (set_state_defaults_for_site st site) site oper ft
    success size elapsed ss hss hop hft
  have hold : readLeafD st site oper ft = leafProj (operProj ss oper) ft := by
    rw [← readLeafD_defaults st site site oper ft]
    exact readLeafD_valid _ site oper ft ss hss hop hft
  refine ⟨_, hok, ?_, ?_, ?_⟩
  · intro hsucc
    subst hsucc
    rw [readLeafD_after_update (set_state_defaults_for_site st site)
      site oper ft ss _ hop hft, hold]
    simp only [if_true]
    constructor
    · simp
    · exact ⟨Nat.le_add_right _ _, le_add_of_nonneg_right helapsed⟩
  · intro hsucc
    subst hsucc
    rw [readLeafD_after_update (set_state_defaults_for_site st site)
      site oper ft ss _ hop hft, hold]
    simp
  · intro s' o' f' hne
    rw [readLeafD_after_update_frame (set_state_defaults_for_site st site)
      site oper ft ss _ hop hft hss s' o' f' hne, readLeafD_defaults]

/-- Witness for C3 at a concrete input: a successful 7-byte upload into an
empty statistics map for site `"s"`, filetype `"xlog"`, elapsed 1. -/
theorem c3_statistics_witness :
    ∃ st', incrementStats [] "s" "upload" "xlog" true 7 1 = Except.ok st' ∧
      readLeafD st' "s" "upload" "xlog" =
        { data := 7, count := 1, time_taken := 1, failures := 0 } := by
  obtain ⟨st', hok, hsucc, _, _⟩ :=
    c3_statistics [] "s" "upload" "xlog" true 7 1 (Or.inl rfl)
      (Or.inr (Or.inl rfl)) (by norm_num)
  refine ⟨st', hok, ?_⟩
  rw [(hsucc rfl).1]
  have h0 : readLeafD [] "s" "upload" "xlog" = zeroLeaf := rfl
  rw [h0]
  simp [zeroLeaf]

/-! ### C5 and C10: backend registry resolution -/

theorem resolveEntries_all_ok (site : String) (slast : Storage) (k : String)
    (v : Dict) (hlast : get_object_storage_transfer k v = Except.ok slast) :
    ∀ (es : List (String × Dict)) (cur : Option Storage) (cache : Cache),
      (∀ p ∈ es, ∃ s, get_object_storage_transfer p.1 p.2 = Except.ok s) →
      resolveEntries site (es ++ [(k, v)]) cur cache =
        (Except.ok (some slast), assocSet cache site slast) := by
  intro es
  induction es with
  | nil =>
    intro cur cache _
    simp [resolveEntries, hlast]
  | cons p rest ih =>
    intro cur cache hall
    obtain ⟨s1, hs1⟩ := hall p (List.mem_cons_self p rest)
    rcases p with ⟨k1, v1⟩
    simp only [List.cons_append, resolveEntries, hs1]
    have hrec := ih (some s1) (assocSet cache site s1)
      (fun q hq => hall q (List.mem_cons_of_mem _ hq))
    rw [assocSet_assocSet] at hrec
    exact hrec

/-- A site configured with two complete provider entries: `google` first,
`azure` second. -/
def cfgTwoEntries : Config :=
  { backup_sites :=
      [("s",
        { object_storage :=
            some [("google", [("project_id", "p")]),
                  ("azure", [("account_name", "a"), ("account_key", "b")])] })] }

/-- C5 counterexample: a site configured with two provider entries —
`google` first, `azure` second, both complete.  The registry returns and
caches the backend constructed from the LAST entry (`azure`), which
differs from the backend the first entry would construct — refuting
"the first non-empty config key wins". -/
theorem c5_counterexample :
    (get_object_storage cfgTwoEntries [] "s").1 =
      Except.ok (some (Storage.azure "a" "b" "pghoard")) ∧
    Storage.azure "a" "b" "pghoard" ≠ Storage.google "p" "pghoard" none := by
  constructor
  · rfl
  · decide

/-- C5 (amended): when a site's `object_storage` mapping has several
provider entries and they all construct successfully, every entry is
constructed in order and each overwrites the cache, so the backend
returned and left cached on first resolution is the one built from the
LAST config entry. -/
theorem c5_last_entry_wins (cfg : Config) (cache : Cache) (site : String)
    (sc : SiteCfg) (es : List (String × Dict)) (k : String) (v : Dict)
    (slast : Storage)
    (hcache : alookup cache site = none)
    (hcfg : alookup cfg.backup_sites site = some sc)
    (hos : sc.object_storage.getD [] = es ++ [(k, v)])
    (hall : ∀ p ∈ es, ∃ s, get_object_storage_transfer p.1 p.2 = Except.ok s)
    (hlast : get_object_storage_transfer k v = Except.ok slast) :
    get_object_storage cfg cache site =
      (Except.ok (some slast), assocSet cache site slast) := by
  unfold get_object_storage
  simp only [hcache, hcfg, hos]
  exact resolveEntries_all_ok site slast k v hlast es none cache hall

/-- Witness for C5 (amended) at the two-entry configuration: the `azure`
backend from the second (last) entry is returned and cached. -/
theorem c5_last_entry_wins_witness :
    get_object_storage cfgTwoEntries [] "s" =
      (Except.ok (some (Storage.azure "a" "b" "pghoard")),
       [("s", Storage.azure "a" "b" "pghoard")]) := by
  exact c5_last_entry_wins _ [] "s" _ [("google", [("project_id", "p")])]
    "azure" [("account_name", "a"), ("account_key", "b")]
    (Storage.azure "a" "b" "pghoard") rfl rfl rfl
    (by
      intro p hp
      simp only [List.mem_singleton] at hp
      subst hp
      exact ⟨Storage.google "p" "pghoard" none, rfl⟩)
    rfl

/-- C10: a site whose `object_storage` mapping is empty resolves to no
backend (`None`) with the cache left untouched, so every later resolution
call for that site starts from the same cache miss and re-reads the
configuration. -/
theorem c10_empty_config_no_cache (cfg : Config) (cache : Cache)
    (site : String) (sc : SiteCfg)
    (hcache : alookup cache site = none)
    (hcfg : alookup cfg.backup_sites site = some sc)
    (hos : sc.object_storage.getD [] = []) :
    get_object_storage cfg cache site = (Except.ok none, cache) := by
  unfold get_object_storage
  simp only [hcache, hcfg, hos, resolveEntries]

/-- Witness for C10 at a concrete empty `object_storage` mapping. -/
theorem c10_empty_config_no_cache_witness :
    get_object_storage
      { backup_sites := [("s", { object_storage := some [] })] } [] "s" =
      (Except.ok none, []) :=
  c10_empty_config_no_cache _ [] "s" _ rfl rfl rfl

/-! ### C2, C7, C8, C9: the upload and download handlers -/

/-- C2: for an upload whose backend store operation fails (memory- or
disk-based), the handler sleeps the fixed 0.5s delay, puts the very same
request dict unchanged back on the transfer queue, returns
`{"success": False, "call_callback": False}`, and the run loop therefore
delivers no callback for this attempt. -/
theorem c2_upload_failure_requeue (cfg : Config) (env : Env)
    (cache cache' : Cache) (site key : String) (ftt : FileToTransfer)
    (st : Option Storage) (e : PyErr) (lp : String)
    (hres : get_object_storage cfg cache site = (Except.ok st, cache'))
    (hlp : ftt.local_path = some lp)
    (hstore :
      (∃ b md, ftt.blob = some b ∧ ftt.metadata = some md ∧
        storeMemOpt env st key b md = Except.error e) ∨
      (ftt.blob = none ∧ ∃ md, ftt.metadata = some md ∧
        storeDiskOpt env st key lp md = Except.error e)) :
    handle_upload cfg env cache site key ftt =
      Except.ok { result := { success := false, call_callback := some false },
                  req := ftt, cache := cache',
                  effects := { transferPuts := [ftt],
                               sleeps := [(1 : Rat)/2] } } ∧
    callbackPutsFor ftt { success := false, call_callback := some false } = [] := by
  have hbody : uploadBody env st key ftt = Except.error e := by
    rcases hstore with ⟨b, md, hb, hmd, hcall⟩ | ⟨hb, md, hmd, hcall⟩
    · simp [uploadBody, hb, hmd, getK, hcall]
    · simp [uploadBody, hb, hlp, hmd, getK, hcall]
  constructor
  · unfold handle_upload
    simp only [hres, ebind_ok, hbody, hlp]
  · simp [callbackPutsFor]

/-- C7: a download whose backend fetch raises the not-found error returns
`{"success": False}` (no `call_callback` key), puts nothing on the
compression queue and puts nothing back on the transfer queue. -/
theorem c7_download_not_found (cfg : Config) (env : Env)
    (cache cache' : Cache) (site key : String) (ftt : FileToTransfer)
    (st : Option Storage)
    (hres : get_object_storage cfg cache site = (Except.ok st, cache'))
    (hfetch : fetchOpt env st key =
      Except.error PyErr.fileNotFoundFromStorageError) :
    handle_download cfg env cache site key ftt =
      { result := { success := false, call_callback := none },
        req := ftt, cache := cache', effects := {} } := by
  unfold handle_download
  simp only [hres, hfetch]

/-- C8: a download whose backend fetch succeeds sets the request's
`file_size` to the content length, puts exactly one `DECOMPRESSION`
message (content, callback queue, `target_path` as destination, fetched
metadata, site) on the compression queue, and returns
`{"success": True, "call_callback": False}`, so the run loop delivers no
callback for it. -/
theorem c8_download_success (cfg : Config) (env : Env)
    (cache cache' : Cache) (site key : String) (ftt : FileToTransfer)
    (st : Option Storage) (content : List Nat) (md : Metadata)
    (q : Nat) (tp : String)
    (hres : get_object_storage cfg cache site = (Except.ok st, cache'))
    (hfetch : fetchOpt env st key = Except.ok (content, md))
    (hcb : ftt.callback_queue = some q)
    (htp : ftt.target_path = some tp) :
    handle_download cfg env cache site key ftt =
      { result := { success := true, call_callback := some false },
        req := { ftt with file_size := some content.length },
        cache := cache',
        effects := { compressionPuts :=
          [{ blob := content, callback_queue := q, local_path := tp,
             metadata := md, site := site, rtype := "DECOMPRESSION" }] } } ∧
    callbackPutsFor { ftt with file_size := some content.length }
      { success := true, call_callback := some false } = [] := by
  constructor
  · unfold handle_download
    simp [hres, hfetch, hcb, htp]
  · simp [callbackPutsFor]

/-- C9: a download request that carries no `callback_queue` always yields
`{"success": False}` and forwards nothing to the compression queue — even
when the backend fetch succeeds — because the message dict literal reads
`file_to_transfer["callback_queue"]` unconditionally. -/
theorem c9_download_missing_callback_queue (cfg : Config) (env : Env)
    (cache : Cache) (site key : String) (ftt : FileToTransfer)
    (hcb : ftt.callback_queue = none) :
    (handle_download cfg env cache site key ftt).result.success = false ∧
    (handle_download cfg env cache site key ftt).effects.compressionPuts = [] := by
  unfold handle_download
  cases hg : get_object_storage cfg cache site with
  | mk res cache' =>
    cases res with
    | error e => simp
    | ok st =>
      cases hf : fetchOpt env st key with
      | error e => simp [hf]
      | ok pr =>
        rcases pr with ⟨content, md⟩
        simp [hf, hcb]

/-! ### Concrete collaborators for the witnesses -/

/-- A single-site configuration with one `google` provider entry. -/
def cfgOneSite : Config :=
  { backup_sites :=
      [("s", { object_storage := some [("google", [("project_id", "p")])] })] }

/-- The backend `cfgOneSite` resolves for site `"s"`. -/
def gStore : Storage := Storage.google "p" "pghoard" none

/-- An environment whose store operations always fail with a storage
error and whose fetch succeeds. -/
def envStoreFail : Env :=
  { store_file_from_memory := fun _ _ _ _ =>
      Except.error (PyErr.storageError "backend down"),
    store_file_from_disk := fun _ _ _ _ =>
      Except.error (PyErr.storageError "backend down"),
    get_contents_to_string := fun _ _ => Except.ok ([104, 105], [("a", "b")]),
    rmtree := fun _ => Except.ok (),
    unlink := fun _ => Except.ok (),
    path_exists := fun _ => false }

/-- An environment whose operations all succeed; fetch returns two bytes
and one metadata pair. -/
def envAllOk : Env :=
  { store_file_from_memory := fun _ _ _ _ => Except.ok (),
    store_file_from_disk := fun _ _ _ _ => Except.ok (),
    get_contents_to_string := fun _ _ => Except.ok ([104, 105], [("a", "b")]),
    rmtree := fun _ => Except.ok (),
    unlink := fun _ => Except.ok (),
    path_exists := fun _ => false }

/-- An environment whose fetch raises the not-found error. -/
def envNotFound : Env :=
  { store_file_from_memory := fun _ _ _ _ => Except.ok (),
    store_file_from_disk := fun _ _ _ _ => Except.ok (),
    get_contents_to_string := fun _ _ =>
      Except.error PyErr.fileNotFoundFromStorageError,
    rmtree := fun _ => Except.ok (),
    unlink := fun _ => Except.ok (),
    path_exists := fun _ => false }

/-- A memory-sourced upload request. -/
def reqUp : FileToTransfer :=
  { rtype := some "UPLOAD", local_path := some "/x/y.z", site := some "s",
    filetype := some "xlog", file_size := some 3, blob := some [1, 2, 3],
    metadata := some [], target_path := none, callback_queue := some 9 }

/-- A download request with a callback queue and a target path. -/
def reqDl : FileToTransfer :=
  { rtype := some "DOWNLOAD", local_path := some "/x/y", site := some "s",
    filetype := some "xlog", file_size := none, blob := none,
    metadata := none, target_path := some "/dst", callback_queue := some 5 }

/-- A download request that carries no `callback_queue`. -/
def reqDlNoCb : FileToTransfer :=
  { reqDl with callback_queue := none }

/-- Witness for C2: the failing memory upload is requeued unchanged with a
0.5s sleep and a `success = False, call_callback = False` result. -/
theorem c2_upload_failure_requeue_witness :
    handle_upload cfgOneSite envStoreFail [] "s" "k" reqUp =
      Except.ok { result := { success := false, call_callback := some false },
                  req := reqUp, cache := [("s", gStore)],
                  effects := { transferPuts := [reqUp],
                               sleeps := [(1 : Rat)/2] } } :=
  (c2_upload_failure_requeue cfgOneSite envStoreFail [] [("s", gStore)]
    "s" "k" reqUp (some gStore) (PyErr.storageError "backend down") "/x/y.z"
    rfl rfl
    (Or.inl ⟨[1, 2, 3], [], rfl, rfl, rfl⟩)).1

/-- Witness for C7: a not-found download yields a failed result, an empty
effect record and an unchanged request. -/
theorem c7_download_not_found_witness :
    handle_download cfgOneSite envNotFound [] "s" "k" reqDl =
      { result := { success := false, call_callback := none },
        req := reqDl, cache := [("s", gStore)], effects := {} } :=
  c7_download_not_found cfgOneSite envNotFound [] [("s", gStore)] "s" "k"
    reqDl (some gStore) rfl rfl

/-- Witness for C8: a successful download forwards one decompression
message and records the fetched size on the request. -/
theorem c8_download_success_witness :
    handle_download cfgOneSite envAllOk [] "s" "k" reqDl =
      { result := { success := true, call_callback := some false },
        req := { reqDl with file_size := some 2 },
        cache := [("s", gStore)],
        effects := { compressionPuts :=
          [{ blob := [104, 105], callback_queue := 5, local_path := "/dst",
             metadata := [("a", "b")], site := "s",
             rtype := "DECOMPRESSION" }] } } :=
  (c8_download_success cfgOneSite envAllOk [] [("s", gStore)] "s" "k" reqDl
    (some gStore) [104, 105] [("a", "b")] 5 "/dst" rfl rfl rfl rfl).1

/-- Witness for C9: with the fetch succeeding but no `callback_queue` on
the request, the download still fails and forwards nothing. -/
theorem c9_download_missing_callback_queue_witness :
    (handle_download cfgOneSite envAllOk [] "s" "k" reqDlNoCb).result.success
      = false ∧
    (handle_download cfgOneSite envAllOk [] "s" "k"
      reqDlNoCb).effects.compressionPuts = [] :=
  c9_download_missing_callback_queue cfgOneSite envAllOk [] "s" "k"
    reqDlNoCb rfl

/-! ### C1: the worker loop and uncaught exceptions -/

/-- A request carrying the fields the run loop reads outside any `try`
block (`type`, `local_path`, `site`, `filetype`), with a filetype among
the three the statistics map knows. -/
def wellFormedReq (f : FileToTransfer) : Prop :=
  (∃ ty, f.rtype = some ty) ∧ (∃ lp, f.local_path = some lp) ∧
  (∃ s, f.site = some s) ∧
  (f.filetype = some "basebackup" ∨ f.filetype = some "xlog" ∨
    f.filetype = some "timeline")

/-- A loop-head observation whose request (if any) is well-formed. -/
def wellFormedEvent : LoopEvent → Prop
  | LoopEvent.item f _ _ => wellFormedReq f
  | _ => True

theorem handle_upload_ok (cfg : Config) (env : Env) (cache : Cache)
    (site key : String) (ftt : FileToTransfer) (lp : String)
    (hlp : ftt.local_path = some lp) :
    ∃ h, handle_upload cfg env cache site key ftt = Except.ok h := by
  unfold handle_upload
  cases hg : get_object_storage cfg cache site with
  | mk res cache' =>
    cases res with
    | error e =>
      refine ⟨{ result := { success := false, call_callback := some false },
                req := ftt, cache := cache',
                effects := { transferPuts := [ftt],
                             sleeps := [(1 : Rat)/2] } }, ?_⟩
      simp only [ebind_err, hlp]
    | ok st =>
      cases hB : uploadBody env st key ftt with
      | ok fsActs =>
        refine ⟨{ result := { success := true, call_callback := none },
                  req := ftt, cache := cache',
                  effects := { fs := fsActs } }, ?_⟩
        simp only [ebind_ok, hB]
      | error e =>
        refine ⟨{ result := { success := false, call_callback := some false },
                  req := ftt, cache := cache',
                  effects := { transferPuts := [ftt],
                               sleeps := [(1 : Rat)/2] } }, ?_⟩
        simp only [ebind_ok, hB, hlp]

theorem incrementStats_ok (st : StateMap) (site oper ft : String)
    (success : Bool) (size : Nat) (elapsed : Rat)
    (hop : oper = "upload" ∨ oper = "download")
    (hft : ft = "basebackup" ∨ ft = "xlog" ∨ ft = "timeline") :
    ∃ st', incrementStats st site oper ft success size elapsed =
      Except.ok st' := by
  obtain ⟨ss, hss⟩ := alookup_defaults_self st site
  exact ⟨_, updateStats_eq (set_state_defaults_for_site st site) site oper ft
    success size elapsed ss hss hop hft⟩

theorem form_key_path_ok (ftt : FileToTransfer) (site ft lp : String)
    (hs : ftt.site = some site) (hf : ftt.filetype = some ft)
    (hl : ftt.local_path = some lp) :
    ∃ k, form_key_path ftt = Except.ok k := by
  by_cases hbb : ft = "basebackup" <;>
    simp [form_key_path, getK, hs, hf, hl, hbb]

theorem processItem_ok (cfg : Config) (env : Env) (ws : WorkerState)
    (ftt : FileToTransfer) (t0 t1 : Rat) (h : wellFormedReq ftt) :
    ∃ out, processItem cfg env ws ftt t0 t1 = Except.ok out := by
  obtain ⟨⟨ty, hty⟩, ⟨lp, hlp⟩, ⟨site, hsite⟩, hft⟩ := h
  have hftv : ∃ ftv, ftt.filetype = some ftv ∧
      (ftv = "basebackup" ∨ ftv = "xlog" ∨ ftv = "timeline") := by
    rcases hft with h | h | h
    exacts [⟨_, h, Or.inl rfl⟩, ⟨_, h, Or.inr (Or.inl rfl)⟩,
      ⟨_, h, Or.inr (Or.inr rfl)⟩]
  obtain ⟨ftv, hftv1, hftv2⟩ := hftv
  unfold processItem
  simp only [hty, getK, ebind_ok]
  by_cases hq : ty = "QUIT"
  · rw [if_pos hq]
    exact ⟨_, rfl⟩
  · rw [if_neg hq]
    simp only [hlp, getK, ebind_ok]
    obtain ⟨key, hkey⟩ := form_key_path_ok ftt site ftv lp hsite hftv1 hlp
    simp only [hkey, ebind_ok]
    by_cases hop : pyLower ty = "upload" ∨ pyLower ty = "download"
    · rw [if_pos hop]
      simp only [hsite, hftv1, getK, ebind_ok]
      by_cases hu : pyLower ty = "upload"
      · rw [if_pos hu]
        obtain ⟨hout, hhout⟩ :=
          handle_upload_ok cfg env ws.site_transfers site key ftt lp hlp
        simp only [hhout, ebind_ok]
        obtain ⟨st', hst'⟩ := incrementStats_ok ws.state site (pyLower ty) ftv
          hout.result.success (hout.req.file_size.getD 0) (t1 - t0) hop hftv2
        simp only [hst', ebind_ok]
        exact ⟨_, rfl⟩
      · rw [if_neg hu]
        obtain ⟨st', hst'⟩ := incrementStats_ok ws.state site (pyLower ty) ftv
          (handle_download cfg env ws.site_transfers site key ftt).result.success
          ((handle_download cfg env ws.site_transfers site key
            ftt).req.file_size.getD 0) (t1 - t0) hop hftv2
        simp only [hst', ebind_ok]
        exact ⟨_, rfl⟩
    · rw [if_neg hop]
      exact ⟨_, rfl⟩

/-- C1 (amended): for a trace whose requests all carry the `type`,
`local_path`, `site` and `filetype` fields with a filetype among
`basebackup`/`xlog`/`timeline`, the run loop raises no exception: handler
errors are converted into results, unknown operations are logged and
dropped, and the loop returns only through a `QUIT` request, the stop
flag, or the end of the trace.  (As stated the original claim is false:
a missing field or an unknown filetype raises `KeyError` out of the loop —
see the counterexample.) -/
theorem c1_worker_loop_no_crash (cfg : Config) (env : Env) :
    ∀ (events : List LoopEvent) (ws : WorkerState),
      (∀ ev ∈ events, wellFormedEvent ev) →
      ∃ out, runLoop cfg env ws events = Except.ok out := by
  intro events
  induction events with
  | nil =>
    intro ws _
    exact ⟨_, rfl⟩
  | cons ev rest ih =>
    intro ws hall
    cases ev with
    | stopFlag => exact ⟨_, rfl⟩
    | timeout => exact ih ws (fun e he => hall e (List.mem_cons_of_mem _ he))
    | item f t0 t1 =>
      obtain ⟨⟨out, ws', effs⟩, hstep⟩ := processItem_ok cfg env ws f t0 t1
        (hall _ (List.mem_cons_self _ _))
      cases out with
      | quit =>
        exact ⟨(ws', effs, LoopEnd.quitReq),
          by simp only [runLoop, hstep, ebind_ok]⟩
      | next =>
        obtain ⟨⟨ws2, effs2, e2⟩, hrest⟩ :=
          ih ws' (fun e he => hall e (List.mem_cons_of_mem _ he))
        exact ⟨(ws2, Effects.app effs effs2, e2),
          by simp only [runLoop, hstep, ebind_ok, hrest]⟩

/-- A well-formed upload request processed without crashing. -/
def reqGood : FileToTransfer :=
  { rtype := some "UPLOAD", local_path := some "/x/y.z", site := some "s",
    filetype := some "xlog", file_size := some 2, blob := some [1, 2],
    metadata := some [], target_path := none, callback_queue := some 9 }

/-- Witness for C1 (amended): a trace with one well-formed upload followed
by the stop flag runs to completion without an exception. -/
theorem c1_worker_loop_no_crash_witness :
    ∃ out, runLoop cfgOneSite envAllOk ⟨[], []⟩
      [LoopEvent.item reqGood 0 1, LoopEvent.stopFlag] = Except.ok out := by
  apply c1_worker_loop_no_crash cfgOneSite envAllOk
  intro ev hev
  simp only [List.mem_cons, List.not_mem_nil, or_false] at hev
  rcases hev with rfl | rfl
  · exact ⟨⟨"UPLOAD", rfl⟩, ⟨"/x/y.z", rfl⟩, ⟨"s", rfl⟩,
      Or.inr (Or.inl rfl)⟩
  · trivial

/-- A request whose filetype `"wal"` is unknown to the statistics map. -/
def reqBadFiletype : FileToTransfer :=
  { rtype := some "UPLOAD", local_path := some "/x/y", site := some "s",
    filetype := some "wal", file_size := none, blob := some [1],
    metadata := some [], target_path := none, callback_queue := none }

/-- C1 counterexample: one request with the unknown filetype `"wal"`
(fields all present, operation valid) terminates the worker loop with an
uncaught `KeyError` raised by the statistics update — refuting the claim
that a malformed request never terminates the worker. -/
theorem c1_counterexample :
    runLoop { backup_sites := [] } envAllOk ⟨[], []⟩
      [LoopEvent.item reqBadFiletype 0 0] =
      Except.error (PyErr.keyError "wal") := by
  rfl

end PGHoard
